import Mathlib

/-!
Shallow embedding of the gdrive-transfer repository
(`src/gdrive_transfer_script.py` and `src/gdrive_size_calculator.py`).

The remote Drive service is an external collaborator: read-only queries are
modelled by evaluating pure functions over a modelled destination listing,
remote mutations are modelled as emitted `Action`s, and the success or
failure of each remote call is supplied by an oracle, since the remote's
behaviour is outside the program.  The progress ledger, the cache files and
all decision logic are translated directly from the Python source.
-/

namespace GdriveTransfer

/-! ### Progress ledger (gdrive_transfer_script.py, lines 152-199)

`progress_state` is a Python dict from string keys to entry dicts; it is
modelled as an association list with unique keys (`upsert` replaces in
place, so `List.length` matches Python's `len`).  Each entry dict has the
fields `name`, `type`, `status`, `timestamp` (line 182-187). -/

structure ProgressEntry where
  name : String
  type : String
  status : String
  timestamp : String
deriving Repr, DecidableEq

abbrev ProgressState := List (String × ProgressEntry)

/-- `get_item_key` (line 170-172): `f"{item_id}:{parent_id}"`. -/
def getItemKey (itemId parentId : String) : String :=
  itemId ++ ":" ++ parentId

/-- Dict lookup on the modelled `progress_state`. -/
def lookupEntry : ProgressState → String → Option ProgressEntry
  | [], _ => none
  | (k, e) :: rest, key => if k = key then some e else lookupEntry rest key

/-- `is_item_processed` (lines 174-177): `key in progress_state`.
Note: membership only — the stored status is NOT consulted. -/
def isItemProcessed (ps : ProgressState) (itemId parentId : String) : Bool :=
  (lookupEntry ps (getItemKey itemId parentId)).isSome

/-- Dict assignment `progress_state[key] = {...}`: replace if the key is
present, append otherwise. -/
def upsert : ProgressState → String → ProgressEntry → ProgressState
  | [], key, e => [(key, e)]
  | (k, e0) :: rest, key, e =>
    if k = key then (key, e) :: rest else (k, e0) :: upsert rest key e

/-- The in-memory ledger together with the sequence of durable snapshots
written by `save_progress_state` (each flush serializes the whole dict). -/
structure LedgerIO where
  state : ProgressState
  flushes : List ProgressState
deriving Repr, DecidableEq

/-- `mark_item_processed` (lines 179-191): upserts the entry, then flushes
the whole ledger when `len(progress_state) % 10 == 0` (line 190) — the
trigger reads the TOTAL number of keys in the dict after the write, not a
count of writes since the previous flush. -/
def markItemProcessed (io : LedgerIO)
    (itemId parentId itemName itemType status ts : String) : LedgerIO :=
  let key := getItemKey itemId parentId
  let st := upsert io.state key ⟨itemName, itemType, status, ts⟩
  if st.length % 10 = 0 then ⟨st, io.flushes ++ [st]⟩ else ⟨st, io.flushes⟩

/-! ### Durable file layout (transfer script lines 38-52, size script lines 29-39)

`TOKEN_DIR` defaults to `./data` (`os.getenv('LOG_DIR', './data')`);
`CACHE_DIR = os.path.join(TOKEN_DIR, 'cache')`.  Both scripts share the
same cache directory; the three durable artifacts are distinct files. -/

def TOKEN_DIR : String := "./data"
def CACHE_DIR : String := TOKEN_DIR ++ "/cache"
def PROGRESS_CACHE_FILE : String := CACHE_DIR ++ "/progress_state.json"
def FOLDER_COUNT_CACHE_FILE : String := CACHE_DIR ++ "/folder_counts.json"
def SIZE_CACHE_FILE : String := CACHE_DIR ++ "/folder_sizes.json"

/-- The durable store: path to serialized contents (contents left opaque). -/
abbrev FileSystem := String → Option String

/-- `clear_progress_state` (lines 193-199): resets the in-memory dict to
`{}` and removes `PROGRESS_CACHE_FILE` if it exists (removing a missing
file and leaving it missing coincide in the path-to-contents model).  No
other path is touched. -/
def clearProgressState (fs : FileSystem) : ProgressState × FileSystem :=
  ([], fun p => if p = PROGRESS_CACHE_FILE then none else fs p)

/-! ### Progress percentage (line 308)

`progress = (processed_items / total_items) * 100 if total_items > 0 else 0`.
Python float division by zero raises `ZeroDivisionError`; the division is
modelled as a checked operation returning `Except.error` on a zero
denominator, so the guard's effect is observable. -/

def divChecked (a b : ℚ) : Except Unit ℚ :=
  if b = 0 then Except.error () else Except.ok (a / b)

def progressOfCounts (processedItems totalItems : Nat) : Except Unit ℚ :=
  if totalItems > 0 then
    match divChecked (processedItems : ℚ) (totalItems : ℚ) with
    | Except.ok q => Except.ok (q * 100)
    | Except.error e => Except.error e
  else Except.ok 0

/-! ### Remote items and the destination lookup (lines 238-259) -/

def folderMimeType : String := "application/vnd.google-apps.folder"

/-- A source listing item as returned by `files().list` with
`fields="files(id, name, mimeType, size)"` (line 297).  `size` is absent
for native documents; `int(source_size or 0)` is modelled by
`Option.getD 0`. -/
structure Item where
  id : String
  name : String
  mimeType : String
  size : Option Nat
deriving Repr, DecidableEq

/-- A destination-side node visible to `find_existing_item`'s query. -/
structure DestEntry where
  id : String
  name : String
  mimeType : String
  size : Option Nat
  parent : String
  trashed : Bool
deriving Repr, DecidableEq

/-- What `find_existing_item` returns: `fields='files(id, size)'` (line 251). -/
structure FoundItem where
  id : String
  size : Option Nat
deriving Repr, DecidableEq

/-- `find_existing_item` (lines 238-259): returns `None` on an empty or
blank `parent_id` — `not parent_id or parent_id.strip() == ''` holds
exactly when every character is whitespace (lines 241-243) — returns
`None` when the list query raises `HttpError` (lines 257-259, modelled by
the `queryFails` oracle), otherwise the first file matching
`'{parent_id}' in parents and name = ... and mimeType = ... and trashed = false`. -/
def findExistingItem (queryFails : Bool) (drive : List DestEntry)
    (name parentId mimeType : String) : Option FoundItem :=
  if parentId.data.all (fun c => c.isWhitespace) then none
  else if queryFails then none
  else
    match drive.filter (fun f =>
        f.parent == parentId && f.name == name && f.mimeType == mimeType
          && !f.trashed) with
    | [] => none
    | f :: _ => some ⟨f.id, f.size⟩

/-! ### The per-item step of `copy_folder_recursively` (lines 306-381) -/

/-- Outcomes of the remote calls made while processing one item, supplied
by the environment: whether `find_existing_item`'s query, `files().create`,
`files().delete`, `files().copy` raise `HttpError`. -/
structure ItemOracle where
  findFails : Bool
  createFails : Bool
  deleteFails : Bool
  copyFails : Bool
deriving Repr, DecidableEq

/-- Remote calls attempted by the item step.  `recurse` records the
recursive `copy_folder_recursively(service, item_id, dest_id, ...)` call. -/
inductive Action where
  | createFolder (name parent : String)
  | copyFile (srcId destParent name : String)
  | deleteFile (id : String)
  | recurse (srcId destFolderId : String)
deriving Repr, DecidableEq

/-- Destination mutations (the `recurse` marker is a traversal step, not a
remote mutation). -/
def isMutation : Action → Bool
  | .createFolder _ _ => true
  | .copyFile _ _ _ => true
  | .deleteFile _ => true
  | .recurse _ _ => false

/-- Body of `for item in items:` (lines 306-381), minus the progress-display
bookkeeping which `processItem` adds on top.  Components: resulting ledger,
attempted remote calls in program order, and whether an uncaught
`HttpError` escaped the item body to the page-level handler (only
`files().create` at line 341 is outside any per-item `try`). -/
def processItemCore (o : ItemOracle) (drive : List DestEntry) (led : LedgerIO)
    (item : Item) (destParentFolderId freshFolderId ts : String) :
    LedgerIO × List Action × Bool :=
  -- lines 316-329: `if is_item_processed(...)` — since `is_item_processed`
  -- is exactly `(lookupEntry ...).isSome`, the `if` and the subsequent dict
  -- read `progress_state[get_item_key(...)]` are rendered as one `match`.
  match lookupEntry led.state (getItemKey item.id destParentFolderId) with
  | some existingStatus =>
    if item.mimeType == folderMimeType then
      -- line 322: recurse only when the stored status is created/existing
      if existingStatus.status == "created" || existingStatus.status == "existing" then
        match findExistingItem o.findFails drive item.name destParentFolderId
            item.mimeType with
        | some existingFolder => (led, [Action.recurse item.id existingFolder.id], false)
        | none => (led, [], false)  -- lookup failed: nothing happens, `continue`
      else (led, [], false)
    else (led, [], false)  -- line 328: processed file is skipped
  | none =>
    if item.mimeType == folderMimeType then
      -- lines 331-346: folder procedure
      match findExistingItem o.findFails drive item.name destParentFolderId
          item.mimeType with
      | some existingFolder =>
        let led := markItemProcessed led item.id destParentFolderId item.name
            "folder" "existing" ts
        (led, [Action.recurse item.id existingFolder.id], false)
      | none =>
        if o.createFails then
          -- `files().create` raises: no ledger write, exception escapes the
          -- item body (caught only by the page loop's `except HttpError`)
          (led, [Action.createFolder item.name destParentFolderId], true)
        else
          let led := markItemProcessed led item.id destParentFolderId item.name
              "folder" "created" ts
          (led, [Action.createFolder item.name destParentFolderId,
                 Action.recurse item.id freshFolderId], false)
    else
      -- lines 348-381: file procedure
      match findExistingItem o.findFails drive item.name destParentFolderId
          item.mimeType with
      | some existingFile =>
        -- line 355-356: int(existing_file.get('size', 0)), int(source_size or 0)
        if existingFile.size.getD 0 == item.size.getD 0 then
          let led := markItemProcessed led item.id destParentFolderId item.name
              "file" "existing" ts
          (led, [], false)  -- should_copy = False: no transfer
        else
          -- lines 363-367: best-effort delete (HttpError only logged, so the
          -- `deleteFails` oracle changes nothing), then the copy attempt
          if o.copyFails then
            let led := markItemProcessed led item.id destParentFolderId item.name
                "file" "error" ts
            (led, [Action.deleteFile existingFile.id,
                   Action.copyFile item.id destParentFolderId item.name], false)
          else
            let led := markItemProcessed led item.id destParentFolderId item.name
                "file" "copied" ts
            (led, [Action.deleteFile existingFile.id,
                   Action.copyFile item.id destParentFolderId item.name], false)
      | none =>
        -- should_copy stays True: lines 369-381
        if o.copyFails then
          let led := markItemProcessed led item.id destParentFolderId item.name
              "file" "error" ts
          (led, [Action.copyFile item.id destParentFolderId item.name], false)
        else
          let led := markItemProcessed led item.id destParentFolderId item.name
              "file" "copied" ts
          (led, [Action.copyFile item.id destParentFolderId item.name], false)

/-- One item visit: lines 307-309 increment `processed_items` and compute
the displayed percentage, then the decision body `processItemCore` runs. -/
structure ItemResult where
  ledger : LedgerIO
  processedItems : Nat
  progress : Except Unit ℚ
  actions : List Action
  raised : Bool

def processItem (o : ItemOracle) (drive : List DestEntry) (led : LedgerIO)
    (processedItems totalItems : Nat) (item : Item)
    (destParentFolderId freshFolderId ts : String) : ItemResult :=
  let pi := processedItems + 1
  let c := processItemCore o drive led item destParentFolderId freshFolderId ts
  ⟨c.1, pi, progressOfCounts pi totalItems, c.2.1, c.2.2⟩

/-! ### The page loop of `copy_folder_recursively` (lines 292-301, 383-388)

The `while True:` loop fetches one page per iteration with the current
`page_token`; on success with no `nextPageToken` it breaks, on success
with a token it continues with that token, and on `HttpError` anywhere in
the `try` block it logs, sleeps 5 seconds, and loops again WITHOUT
changing `page_token`.  A script of per-iteration outcomes stands in for
the remote; the observable event trace (fetch attempts with their token,
sleeps) is returned.  An exhausted script means the loop was still
running. -/

inductive PageResp where
  | ok (next : Option String)
  | err
deriving Repr, DecidableEq

inductive LoopEv where
  | fetch (pageToken : Option String)
  | sleep (seconds : Nat)
deriving Repr, DecidableEq

def pageLoopEvents : List PageResp → Option String → List LoopEv
  | [], _ => []
  | PageResp.err :: rs, tok =>
    LoopEv.fetch tok :: LoopEv.sleep 5 :: pageLoopEvents rs tok
  | PageResp.ok none :: _, tok => [LoopEv.fetch tok]
  | PageResp.ok (some t) :: rs, tok =>
    LoopEv.fetch tok :: pageLoopEvents rs (some t)

/-! ### The remote subtree as seen by the read-only traversals

`count_total_items` (transfer script, lines 261-286) and
`calculate_folder_size` (size script, lines 174-239) both page through the
query `'{folder_id}' in parents and trashed=false`, so trashed items never
appear in a listing.  A folder's remote answer is modelled as the sequence
of per-page outcomes the service produces: each fetch either succeeds with
a page of entries (`good`) or raises `HttpError` (`bad`); a folder entry
carries its own sub-listing.  Freestanding list types keep the mutual
recursion structural. -/

mutual
inductive Listing where
  | mk : PageList → Listing
inductive PageList where
  | nil : PageList
  | cons : PageResult → PageList → PageList
inductive PageResult where
  | good : EntryList → PageResult
  | bad : PageResult
inductive EntryList where
  | nil : EntryList
  | cons : Entry → EntryList → EntryList
inductive Entry where
  | fileE : String → String → Option Nat → Entry
  | folderE : String → String → Listing → Entry
end

/-- `len(items)` for a page of entries. -/
def entryListLength : EntryList → Nat
  | EntryList.nil => 0
  | EntryList.cons _ rest => entryListLength rest + 1

/-! `count_total_items` (lines 261-286): per page, `count += len(items)`
and recurse into each folder item; on `HttpError` it logs and `break`s —
the remaining pages of that folder are abandoned and the partial count is
returned (lines 283-285). -/

mutual
def countListing : Listing → Nat
  | Listing.mk pages => countPages pages
def countPages : PageList → Nat
  | PageList.nil => 0
  | PageList.cons PageResult.bad _ => 0
  | PageList.cons (PageResult.good es) rest =>
    entryListLength es + countEntries es + countPages rest
def countEntries : EntryList → Nat
  | EntryList.nil => 0
  | EntryList.cons (Entry.fileE _ _ _) rest => countEntries rest
  | EntryList.cons (Entry.folderE _ _ sub) rest =>
    countListing sub + countEntries rest
end

/-- The triple accumulated by `calculate_folder_size`, field names as in
the cached record (size script, lines 130-135). -/
structure SizeTotals where
  total_size : Nat
  file_count : Nat
  folder_count : Nat
deriving Repr, DecidableEq

/-! `calculate_folder_size` (size script, lines 174-239): per item, a
folder adds 1 to `folder_count` and the recursive triple; a file adds 1 to
`file_count` and, when `item.get('size', 0)` is truthy, its integer size
(a missing size contributes no bytes).  On `HttpError` the page loop
`break`s (lines 226-228), like the pre-scan count. -/

mutual
def calcListing : Listing → SizeTotals
  | Listing.mk pages => calcPages pages
def calcPages : PageList → SizeTotals
  | PageList.nil => ⟨0, 0, 0⟩
  | PageList.cons PageResult.bad _ => ⟨0, 0, 0⟩
  | PageList.cons (PageResult.good es) rest =>
    let a := calcEntries es
    let b := calcPages rest
    ⟨a.total_size + b.total_size, a.file_count + b.file_count,
     a.folder_count + b.folder_count⟩
def calcEntries : EntryList → SizeTotals
  | EntryList.nil => ⟨0, 0, 0⟩
  | EntryList.cons (Entry.fileE _ _ sz) rest =>
    let b := calcEntries rest
    match sz with
    | some n => ⟨n + b.total_size, 1 + b.file_count, b.folder_count⟩
    | none => ⟨b.total_size, 1 + b.file_count, b.folder_count⟩
  | EntryList.cons (Entry.folderE _ _ sub) rest =>
    let s := calcListing sub
    let b := calcEntries rest
    ⟨s.total_size + b.total_size, s.file_count + b.file_count,
     (1 + s.folder_count) + b.folder_count⟩
end

/-! Specification-side aggregates, written from the spec's words
("totalSizeBytes is the sum of the reported sizes of all non-trashed
descendant files with a file lacking a reported size contributing 0 bytes,
fileCount counts every descendant file including sizeless ones, and
folderCount counts every descendant folder including all nested folders").
They walk the whole subtree irrespective of page errors; the refinement
theorem compares them with `calcListing` on error-free listings. -/

mutual
def specSumSizes : Listing → Nat
  | Listing.mk pages => specSumSizesP pages
def specSumSizesP : PageList → Nat
  | PageList.nil => 0
  | PageList.cons PageResult.bad rest => specSumSizesP rest
  | PageList.cons (PageResult.good es) rest => specSumSizesE es + specSumSizesP rest
def specSumSizesE : EntryList → Nat
  | EntryList.nil => 0
  | EntryList.cons (Entry.fileE _ _ sz) rest => sz.getD 0 + specSumSizesE rest
  | EntryList.cons (Entry.folderE _ _ sub) rest =>
    specSumSizes sub + specSumSizesE rest
end

mutual
def specFileCount : Listing → Nat
  | Listing.mk pages => specFileCountP pages
def specFileCountP : PageList → Nat
  | PageList.nil => 0
  | PageList.cons PageResult.bad rest => specFileCountP rest
  | PageList.cons (PageResult.good es) rest => specFileCountE es + specFileCountP rest
def specFileCountE : EntryList → Nat
  | EntryList.nil => 0
  | EntryList.cons (Entry.fileE _ _ _) rest => 1 + specFileCountE rest
  | EntryList.cons (Entry.folderE _ _ sub) rest =>
    specFileCount sub + specFileCountE rest
end

mutual
def specFolderCount : Listing → Nat
  | Listing.mk pages => specFolderCountP pages
def specFolderCountP : PageList → Nat
  | PageList.nil => 0
  | PageList.cons PageResult.bad rest => specFolderCountP rest
  | PageList.cons (PageResult.good es) rest =>
    specFolderCountE es + specFolderCountP rest
def specFolderCountE : EntryList → Nat
  | EntryList.nil => 0
  | EntryList.cons (Entry.fileE _ _ _) rest => specFolderCountE rest
  | EntryList.cons (Entry.folderE _ _ sub) rest =>
    (1 + specFolderCount sub) + specFolderCountE rest
end

/-! Whether no page fetch anywhere in the subtree raises. -/

mutual
def errorFreeL : Listing → Bool
  | Listing.mk pages => errorFreeP pages
def errorFreeP : PageList → Bool
  | PageList.nil => true
  | PageList.cons PageResult.bad _ => false
  | PageList.cons (PageResult.good es) rest => errorFreeE es && errorFreeP rest
def errorFreeE : EntryList → Bool
  | EntryList.nil => true
  | EntryList.cons (Entry.fileE _ _ _) rest => errorFreeE rest
  | EntryList.cons (Entry.folderE _ _ sub) rest => errorFreeL sub && errorFreeE rest
end

/-- `n` successive `mark_item_processed` calls that all write the same
TraversalKey `("i", "p")`, starting from `io` (exercises the flush
trigger under repeated upserts of one key). -/
def markSameKeyN : Nat → LedgerIO → LedgerIO
  | 0, io => io
  | n + 1, io => markSameKeyN n (markItemProcessed io "i" "p" "n" "file" "copied" "t")

/-- A concrete subtree: one page holding a 100-byte file and a folder
whose single page holds one sizeless file. -/
def exampleListing : Listing :=
  Listing.mk (PageList.cons (PageResult.good
    (EntryList.cons (Entry.fileE "x" "x" (some 100))
      (EntryList.cons (Entry.folderE "A" "A" (Listing.mk (PageList.cons
        (PageResult.good (EntryList.cons (Entry.fileE "y" "y" none) EntryList.nil))
        PageList.nil)))
        EntryList.nil))) PageList.nil)

/-! ## Theorems -/

/-! ### Ledger lemmas -/

theorem lookupEntry_upsert_self (st : ProgressState) (k : String) (e : ProgressEntry) :
    lookupEntry (upsert st k e) k = some e := by
  induction st with
  | nil => simp [upsert, lookupEntry]
  | cons kv rest ih =>
    obtain ⟨k0, e0⟩ := kv
    by_cases h : k0 = k
    · simp [upsert, h, lookupEntry]
    · simp [upsert, h, lookupEntry, ih]

theorem lookupEntry_upsert_ne (st : ProgressState) (k k' : String) (e : ProgressEntry)
    (h : k' ≠ k) : lookupEntry (upsert st k e) k' = lookupEntry st k' := by
  induction st with
  | nil => simp [upsert, lookupEntry, Ne.symm h]
  | cons kv rest ih =>
    obtain ⟨k0, e0⟩ := kv
    by_cases h0 : k0 = k
    · subst h0
      simp [upsert, lookupEntry, Ne.symm h]
    · simp [upsert, h0, lookupEntry, ih]

theorem markItemProcessed_state (io : LedgerIO) (i p n t s ts : String) :
    (markItemProcessed io i p n t s ts).state
      = upsert io.state (getItemKey i p) ⟨n, t, s, ts⟩ := by
  unfold markItemProcessed
  dsimp only
  split <;> rfl

theorem processItem_actions (o : ItemOracle) (drive : List DestEntry) (led : LedgerIO)
    (pi ti : Nat) (item : Item) (dp fid ts : String) :
    (processItem o drive led pi ti item dp fid ts).actions
      = (processItemCore o drive led item dp fid ts).2.1 := rfl

theorem processItem_ledger (o : ItemOracle) (drive : List DestEntry) (led : LedgerIO)
    (pi ti : Nat) (item : Item) (dp fid ts : String) :
    (processItem o drive led pi ti item dp fid ts).ledger
      = (processItemCore o drive led item dp fid ts).1 := rfl

theorem processItem_raised (o : ItemOracle) (drive : List DestEntry) (led : LedgerIO)
    (pi ti : Nat) (item : Item) (dp fid ts : String) :
    (processItem o drive led pi ti item dp fid ts).raised
      = (processItemCore o drive led item dp fid ts).2.2 := rfl

/-! ### C5: page-fetch failure handling in the two recursive traversals -/

/-- C5 counterexample: the claim says the pre-scan count's per-folder
listing loop also retries a failed page fetch, but `count_total_items`
breaks out of its page loop on `HttpError` (lines 283-285): a folder whose
first page fetch fails yields count 0 even though retrying would reach a
page with one file (the same listing without the failure counts 1). -/
theorem c5_cex :
    countListing (Listing.mk (PageList.cons PageResult.bad
        (PageList.cons (PageResult.good
          (EntryList.cons (Entry.fileE "a" "a" none) EntryList.nil)) PageList.nil))) = 0
    ∧ countListing (Listing.mk (PageList.cons (PageResult.good
          (EntryList.cons (Entry.fileE "a" "a" none) EntryList.nil)) PageList.nil)) = 1 :=
  ⟨rfl, rfl⟩

/-- C5 amended: only the replicator's per-folder page loop reacts to a
failed fetch by sleeping 5 seconds and re-fetching the SAME page token
(the next fetch attempt carries the unchanged token); the pre-scan count's
loop instead breaks on a failed fetch, abandoning the folder with the
partial count of the pages before the failure (everything from the failed
page on contributes 0). -/
theorem c5_amended :
    (∀ (rs : List PageResp) (tok : Option String),
        pageLoopEvents (PageResp.err :: rs) tok
          = LoopEv.fetch tok :: LoopEv.sleep 5 :: pageLoopEvents rs tok)
    ∧ (∀ (r : PageResp) (rs : List PageResp) (tok : Option String),
        (pageLoopEvents (r :: rs) tok).head? = some (LoopEv.fetch tok))
    ∧ (∀ rest : PageList, countPages (PageList.cons PageResult.bad rest) = 0) := by
  refine ⟨fun rs tok => rfl, fun r rs tok => ?_, fun rest => rfl⟩
  cases r with
  | err => rfl
  | ok next => cases next <;> rfl

/-! ### C6: the flush trigger of `mark_item_processed` -/

/-- C6 counterexample: the claim says a flush happens exactly when the
number of entries written since the previous flush reaches 10, but the
code's trigger is `len(progress_state) % 10 == 0` (line 190).  Ten writes
that upsert the same key leave the dict at one entry, so no flush ever
fires — the tenth write since the last flush produces no flush, and all
ten outcomes would be lost on a crash. -/
theorem c6_cex :
    (markSameKeyN 10 ⟨[], []⟩).flushes = []
    ∧ (markSameKeyN 10 ⟨[], []⟩).state.length = 1 :=
  ⟨rfl, rfl⟩

/-- C6 amended: `mark_item_processed` upserts the entry (the written key
maps to the new entry, every other key is untouched) and appends a flush
of the whole ledger exactly when the TOTAL number of entries in the dict
after the write is divisible by 10 — not when the writes since the last
flush reach 10, so upserts of existing keys can defer a flush arbitrarily
long (or fire one after a single write). -/
theorem c6_amended (io : LedgerIO) (i p n t s ts k' : String) :
    lookupEntry (markItemProcessed io i p n t s ts).state (getItemKey i p)
        = some ⟨n, t, s, ts⟩
    ∧ (k' ≠ getItemKey i p →
        lookupEntry (markItemProcessed io i p n t s ts).state k'
          = lookupEntry io.state k')
    ∧ (markItemProcessed io i p n t s ts).flushes.length
        = io.flushes.length
          + (if (markItemProcessed io i p n t s ts).state.length % 10 = 0
             then 1 else 0) := by
  refine ⟨?_, ?_, ?_⟩
  · rw [markItemProcessed_state]
    exact lookupEntry_upsert_self ..
  · intro hk
    rw [markItemProcessed_state]
    exact lookupEntry_upsert_ne _ _ _ _ hk
  · unfold markItemProcessed
    dsimp only
    split
    · next h => simp [h]
    · next h => simp [h]

/-- C6 witness: the amended theorem at a concrete call on the empty
ledger, with the untouched-key part discharged at key `"z"`. -/
theorem c6_witness :
    lookupEntry (markItemProcessed ⟨[], []⟩ "i" "p" "nm" "file" "copied" "t").state
        (getItemKey "i" "p") = some ⟨"nm", "file", "copied", "t"⟩
    ∧ lookupEntry (markItemProcessed ⟨[], []⟩ "i" "p" "nm" "file" "copied" "t").state "z"
        = lookupEntry ([] : ProgressState) "z" :=
  ⟨(c6_amended ⟨[], []⟩ "i" "p" "nm" "file" "copied" "t" "z").1,
   (c6_amended ⟨[], []⟩ "i" "p" "nm" "file" "copied" "t" "z").2.1 (by decide)⟩

/-! ### C7: fresh start clears only the progress ledger -/

/-- C7: `clear_progress_state` (lines 193-199, invoked by `--fresh-start`
at lines 438-440) resets the in-memory ledger to empty and deletes the
progress file, and changes nothing else of the durable state: every other
path — in particular the folder-count cache file and the size cache
file — keeps its contents. -/
theorem c7_thm (fs : FileSystem) :
    (clearProgressState fs).1 = []
    ∧ (clearProgressState fs).2 PROGRESS_CACHE_FILE = none
    ∧ (∀ p, p ≠ PROGRESS_CACHE_FILE → (clearProgressState fs).2 p = fs p)
    ∧ (clearProgressState fs).2 FOLDER_COUNT_CACHE_FILE = fs FOLDER_COUNT_CACHE_FILE
    ∧ (clearProgressState fs).2 SIZE_CACHE_FILE = fs SIZE_CACHE_FILE := by
  refine ⟨rfl, by simp [clearProgressState], fun p hp => ?_, ?_, ?_⟩
  · simp [clearProgressState, hp]
  · show (if FOLDER_COUNT_CACHE_FILE = PROGRESS_CACHE_FILE
          then none else fs FOLDER_COUNT_CACHE_FILE) = fs FOLDER_COUNT_CACHE_FILE
    rw [if_neg (by decide)]
  · show (if SIZE_CACHE_FILE = PROGRESS_CACHE_FILE
          then none else fs SIZE_CACHE_FILE) = fs SIZE_CACHE_FILE
    rw [if_neg (by decide)]

/-- C7 witness: on a filesystem where every path holds `"x"`, a fresh
start leaves an unrelated path (the token file) intact. -/
theorem c7_witness :
    (clearProgressState (fun _ => some "x")).2 "./data/token.pickle" = some "x" := by
  have h := c7_thm (fun _ => some "x")
  simpa using h.2.2.1 "./data/token.pickle" (by decide)

/-! ### C9: zero total item count never causes a division fault -/

/-- C9: at every item visit (line 308) the displayed percentage is guarded
by `if total_items > 0 else 0`: with a total of 0 the result is 0 and the
checked division is never evaluated, and for every total the computation
never produces a division fault. -/
theorem c9_thm :
    (∀ (o : ItemOracle) (drive : List DestEntry) (led : LedgerIO) (pi : Nat)
        (item : Item) (dp fid ts : String),
        (processItem o drive led pi 0 item dp fid ts).progress = Except.ok 0)
    ∧ (∀ (o : ItemOracle) (drive : List DestEntry) (led : LedgerIO) (pi ti : Nat)
        (item : Item) (dp fid ts : String),
        (processItem o drive led pi ti item dp fid ts).progress.isOk = true) := by
  constructor
  · intro o drive led pi item dp fid ts
    rfl
  · intro o drive led pi ti item dp fid ts
    show (progressOfCounts (pi + 1) ti).isOk = true
    unfold progressOfCounts divChecked
    by_cases h : ti > 0
    · have hne : (ti : ℚ) ≠ 0 := Nat.cast_ne_zero.mpr (Nat.pos_iff_ne_zero.mp h)
      simp [h, hne, Except.isOk, Except.toBool]
    · simp [h, Except.isOk, Except.toBool]

/-! ### C8: the size aggregator matches the spec-side aggregates -/

mutual
theorem calcSpecL : ∀ (l : Listing), errorFreeL l = true →
    calcListing l = ⟨specSumSizes l, specFileCount l, specFolderCount l⟩
  | Listing.mk pages, h => by
    have hp := calcSpecP pages h
    simpa [calcListing, specSumSizes, specFileCount, specFolderCount] using hp
theorem calcSpecP : ∀ (ps : PageList), errorFreeP ps = true →
    calcPages ps = ⟨specSumSizesP ps, specFileCountP ps, specFolderCountP ps⟩
  | PageList.nil, _ => rfl
  | PageList.cons PageResult.bad rest, h => by
    simp [errorFreeP] at h
  | PageList.cons (PageResult.good es) rest, h => by
    rw [show errorFreeP (PageList.cons (PageResult.good es) rest)
        = (errorFreeE es && errorFreeP rest) from rfl, Bool.and_eq_true] at h
    obtain ⟨h1, h2⟩ := h
    have he := calcSpecE es h1
    have hr := calcSpecP rest h2
    simp [calcPages, specSumSizesP, specFileCountP, specFolderCountP, he, hr]
theorem calcSpecE : ∀ (es : EntryList), errorFreeE es = true →
    calcEntries es = ⟨specSumSizesE es, specFileCountE es, specFolderCountE es⟩
  | EntryList.nil, _ => rfl
  | EntryList.cons (Entry.fileE i n sz) rest, h => by
    have hr := calcSpecE rest h
    cases sz with
    | some v =>
      simp [calcEntries, specSumSizesE, specFileCountE, specFolderCountE, hr]
    | none =>
      simp [calcEntries, specSumSizesE, specFileCountE, specFolderCountE, hr]
  | EntryList.cons (Entry.folderE i n sub) rest, h => by
    rw [show errorFreeE (EntryList.cons (Entry.folderE i n sub) rest)
        = (errorFreeL sub && errorFreeE rest) from rfl, Bool.and_eq_true] at h
    obtain ⟨h1, h2⟩ := h
    have hs := calcSpecL sub h1
    have hr := calcSpecE rest h2
    simp [calcEntries, specSumSizesE, specFileCountE, specFolderCountE, hs, hr]
end

/-- C8: on a subtree whose listings all succeed, `calculate_folder_size`
returns exactly `(totalSizeBytes, fileCount, folderCount)` where
totalSizeBytes sums the reported sizes of all descendant files (a file
without a reported size contributing 0 bytes), fileCount counts every
descendant file including sizeless ones, and folderCount counts every
descendant folder including all nested folders. -/
theorem c8_thm (l : Listing) (h : errorFreeL l = true) :
    calcListing l = ⟨specSumSizes l, specFileCount l, specFolderCount l⟩ :=
  calcSpecL l h

/-- C8 witness: the concrete subtree (a 100-byte file plus a folder with
one sizeless file) is error-free and aggregates to 100 bytes, 2 files,
1 folder. -/
theorem c8_witness :
    errorFreeL exampleListing = true
    ∧ calcListing exampleListing
        = ⟨specSumSizes exampleListing, specFileCount exampleListing,
           specFolderCount exampleListing⟩
    ∧ calcListing exampleListing = ⟨100, 2, 1⟩ :=
  ⟨rfl, c8_thm exampleListing rfl, rfl⟩

/-! ### Characterizations of the per-item step -/

theorem processItemCore_processed (o : ItemOracle) (drive : List DestEntry)
    (led : LedgerIO) (item : Item) (dp fid ts : String) (e : ProgressEntry)
    (hl : lookupEntry led.state (getItemKey item.id dp) = some e) :
    processItemCore o drive led item dp fid ts = (led, [], false)
    ∨ ∃ destId, processItemCore o drive led item dp fid ts
        = (led, [Action.recurse item.id destId], false) := by
  by_cases hf : item.mimeType == folderMimeType
  · by_cases hs : (e.status == "created" || e.status == "existing") = true
    · cases hfind : findExistingItem o.findFails drive item.name dp item.mimeType with
      | some f =>
        right
        exact ⟨f.id, by simp [processItemCore, hl, hf, hs, hfind]⟩
      | none =>
        left
        simp [processItemCore, hl, hf, hs, hfind]
    · left
      simp [processItemCore, hl, hf, hs]
  · left
    simp [processItemCore, hl, hf]

theorem processItemCore_file_existing (o : ItemOracle) (drive : List DestEntry)
    (led : LedgerIO) (item : Item) (dp fid ts : String) (f : FoundItem)
    (hfile : (item.mimeType == folderMimeType) = false)
    (hnew : lookupEntry led.state (getItemKey item.id dp) = none)
    (hfound : findExistingItem o.findFails drive item.name dp item.mimeType = some f)
    (hsz : f.size.getD 0 = item.size.getD 0) :
    processItemCore o drive led item dp fid ts
      = (markItemProcessed led item.id dp item.name "file" "existing" ts, [], false) := by
  simp [processItemCore, hnew, hfile, hfound, hsz]

theorem processItemCore_file_mismatch (o : ItemOracle) (drive : List DestEntry)
    (led : LedgerIO) (item : Item) (dp fid ts : String) (f : FoundItem)
    (hfile : (item.mimeType == folderMimeType) = false)
    (hnew : lookupEntry led.state (getItemKey item.id dp) = none)
    (hfound : findExistingItem o.findFails drive item.name dp item.mimeType = some f)
    (hsz : f.size.getD 0 ≠ item.size.getD 0) :
    processItemCore o drive led item dp fid ts
      = (markItemProcessed led item.id dp item.name "file"
           (if o.copyFails then "error" else "copied") ts,
         [Action.deleteFile f.id, Action.copyFile item.id dp item.name], false) := by
  cases hc : o.copyFails <;>
    simp [processItemCore, hnew, hfile, hfound, hsz, hc]

theorem processItemCore_file_notfound (o : ItemOracle) (drive : List DestEntry)
    (led : LedgerIO) (item : Item) (dp fid ts : String)
    (hfile : (item.mimeType == folderMimeType) = false)
    (hnew : lookupEntry led.state (getItemKey item.id dp) = none)
    (hfound : findExistingItem o.findFails drive item.name dp item.mimeType = none) :
    processItemCore o drive led item dp fid ts
      = (markItemProcessed led item.id dp item.name "file"
           (if o.copyFails then "error" else "copied") ts,
         [Action.copyFile item.id dp item.name], false) := by
  cases hc : o.copyFails <;>
    simp [processItemCore, hnew, hfile, hfound, hc]

theorem processItemCore_folder_createFails (o : ItemOracle) (drive : List DestEntry)
    (led : LedgerIO) (item : Item) (dp fid ts : String)
    (hfolder : (item.mimeType == folderMimeType) = true)
    (hnew : lookupEntry led.state (getItemKey item.id dp) = none)
    (hfound : findExistingItem o.findFails drive item.name dp item.mimeType = none)
    (hcreate : o.createFails = true) :
    processItemCore o drive led item dp fid ts
      = (led, [Action.createFolder item.name dp], true) := by
  simp [processItemCore, hnew, hfolder, hfound, hcreate]

/-! ### C1: what the ledger-driven skip actually keys on -/

/-- C1 counterexample: the claim says an item whose ledger entry has
status Errored is not skipped and its action is re-attempted, but
`is_item_processed` (line 177) only tests key membership and the loop
`continue`s for every processed item (line 329): a file whose entry has
status `'error'` produces no remote call at all, while the identical file
with no ledger entry gets its copy attempted. -/
theorem c1_cex :
    (processItem ⟨false, false, false, false⟩ []
        ⟨[("src1:d1", ⟨"a.txt", "file", "error", "t0"⟩)], []⟩ 0 0
        ⟨"src1", "a.txt", "text/plain", some 5⟩ "d1" "n1" "t1").actions = []
    ∧ (processItem ⟨false, false, false, false⟩ [] ⟨[], []⟩ 0 0
        ⟨"src1", "a.txt", "text/plain", some 5⟩ "d1" "n1" "t1").actions
      = [Action.copyFile "src1" "d1" "a.txt"] :=
  ⟨rfl, rfl⟩

/-- C1 amended: the replicator skips re-performing the destination
mutation for every item whose TraversalKey has a ledger entry, whatever
the entry's status — an Errored item is skipped exactly like a Created,
Existing or Copied one, its action is never re-attempted, and the ledger
is left unchanged (at most a recursive descent into an already-processed
folder is performed). -/
theorem c1_amended (o : ItemOracle) (drive : List DestEntry) (led : LedgerIO)
    (pi ti : Nat) (item : Item) (dp fid ts : String)
    (h : isItemProcessed led.state item.id dp = true) :
    (processItem o drive led pi ti item dp fid ts).actions.filter isMutation = []
    ∧ (processItem o drive led pi ti item dp fid ts).ledger = led
    ∧ (processItem o drive led pi ti item dp fid ts).raised = false := by
  have h' : ∃ e, lookupEntry led.state (getItemKey item.id dp) = some e := by
    unfold isItemProcessed at h
    cases hl : lookupEntry led.state (getItemKey item.id dp) with
    | none => rw [hl] at h; simp at h
    | some e => exact ⟨e, rfl⟩
  obtain ⟨e, hl⟩ := h'
  rcases processItemCore_processed o drive led item dp fid ts e hl with hc | ⟨d, hc⟩ <;>
    exact ⟨by simp [processItem_actions, hc, isMutation],
           by simp [processItem_ledger, hc],
           by simp [processItem_raised, hc]⟩

/-- C1 witness: the amended theorem at the concrete Errored file of the
counterexample. -/
theorem c1_witness :
    (processItem ⟨false, false, false, false⟩ []
        ⟨[("src1:d1", ⟨"a.txt", "file", "error", "t0"⟩)], []⟩ 0 0
        ⟨"src1", "a.txt", "text/plain", some 5⟩ "d1" "n1" "t1").actions.filter
        isMutation = []
    ∧ (processItem ⟨false, false, false, false⟩ []
        ⟨[("src1:d1", ⟨"a.txt", "file", "error", "t0"⟩)], []⟩ 0 0
        ⟨"src1", "a.txt", "text/plain", some 5⟩ "d1" "n1" "t1").ledger
      = ⟨[("src1:d1", ⟨"a.txt", "file", "error", "t0"⟩)], []⟩
    ∧ (processItem ⟨false, false, false, false⟩ []
        ⟨[("src1:d1", ⟨"a.txt", "file", "error", "t0"⟩)], []⟩ 0 0
        ⟨"src1", "a.txt", "text/plain", some 5⟩ "d1" "n1" "t1").raised = false :=
  c1_amended ⟨false, false, false, false⟩ []
    ⟨[("src1:d1", ⟨"a.txt", "file", "error", "t0"⟩)], []⟩ 0 0
    ⟨"src1", "a.txt", "text/plain", some 5⟩ "d1" "n1" "t1" (by decide)

/-! ### C2: a processed folder whose destination lookup fails -/

/-- C2 counterexample: the claim says that when the destination lookup for
an already-processed folder finds nothing, the replicator falls through to
the normal folder procedure (creates or re-finds it and recurses); in the
code (lines 322-326) the `if existing_folder:` has no else branch and the
loop `continue`s — at a concrete processed folder with status `'created'`
and an empty destination, no create and no recursion happen. -/
theorem c2_cex :
    (processItem ⟨false, false, false, false⟩ []
        ⟨[("f1:d1", ⟨"Sub", "folder", "created", "t0"⟩)], []⟩ 0 0
        ⟨"f1", "Sub", "application/vnd.google-apps.folder", none⟩
        "d1" "n1" "t1").actions = [] :=
  rfl

/-- C2 amended: for an already-processed folder (ledger status `'created'`
or `'existing'`) whose destination lookup by name, parent and kind returns
no folder, the replicator performs no action at all for this item in this
run — no folder is created or re-found, there is no recursion into the
subtree, and the ledger is unchanged. -/
theorem c2_amended (o : ItemOracle) (drive : List DestEntry) (led : LedgerIO)
    (pi ti : Nat) (item : Item) (dp fid ts : String) (e : ProgressEntry)
    (hl : lookupEntry led.state (getItemKey item.id dp) = some e)
    (hfolder : (item.mimeType == folderMimeType) = true)
    (hst : (e.status == "created" || e.status == "existing") = true)
    (hfind : findExistingItem o.findFails drive item.name dp item.mimeType = none) :
    (processItem o drive led pi ti item dp fid ts).actions = []
    ∧ (processItem o drive led pi ti item dp fid ts).ledger = led
    ∧ (processItem o drive led pi ti item dp fid ts).raised = false := by
  have hc : processItemCore o drive led item dp fid ts = (led, [], false) := by
    simp [processItemCore, hl, hfolder, hst, hfind]
  exact ⟨by simp [processItem_actions, hc], by simp [processItem_ledger, hc],
         by simp [processItem_raised, hc]⟩

/-- C2 witness: the amended theorem at the concrete processed folder of
the counterexample. -/
theorem c2_witness :
    (processItem ⟨false, false, false, false⟩ []
        ⟨[("f1:d1", ⟨"Sub", "folder", "created", "t0"⟩)], []⟩ 0 0
        ⟨"f1", "Sub", "application/vnd.google-apps.folder", none⟩
        "d1" "n1" "t1").actions = []
    ∧ (processItem ⟨false, false, false, false⟩ []
        ⟨[("f1:d1", ⟨"Sub", "folder", "created", "t0"⟩)], []⟩ 0 0
        ⟨"f1", "Sub", "application/vnd.google-apps.folder", none⟩
        "d1" "n1" "t1").ledger
      = ⟨[("f1:d1", ⟨"Sub", "folder", "created", "t0"⟩)], []⟩
    ∧ (processItem ⟨false, false, false, false⟩ []
        ⟨[("f1:d1", ⟨"Sub", "folder", "created", "t0"⟩)], []⟩ 0 0
        ⟨"f1", "Sub", "application/vnd.google-apps.folder", none⟩
        "d1" "n1" "t1").raised = false :=
  c2_amended ⟨false, false, false, false⟩ []
    ⟨[("f1:d1", ⟨"Sub", "folder", "created", "t0"⟩)], []⟩ 0 0
    ⟨"f1", "Sub", "application/vnd.google-apps.folder", none⟩ "d1" "n1" "t1"
    ⟨"Sub", "folder", "created", "t0"⟩ (by decide) (by decide) (by decide) (by decide)

/-! ### C3: which mutation failures are recorded as Errored -/

/-- C3 counterexample: the claim says every failing create-folder,
copy-file or delete-file call gets the key recorded as Errored with the
traversal continuing at the next sibling; but `files().create` (line 341)
sits outside any per-item `try`, so at a concrete new folder whose create
call fails the `HttpError` escapes the item body (to the page loop's
handler, which re-fetches the whole page) and NO ledger entry is written
for the key. -/
theorem c3_cex :
    (processItem ⟨false, true, false, false⟩ [] ⟨[], []⟩ 0 0
        ⟨"f1", "Sub", "application/vnd.google-apps.folder", none⟩
        "d1" "n1" "t1").raised = true
    ∧ lookupEntry (processItem ⟨false, true, false, false⟩ [] ⟨[], []⟩ 0 0
        ⟨"f1", "Sub", "application/vnd.google-apps.folder", none⟩
        "d1" "n1" "t1").ledger.state "f1:d1" = none :=
  ⟨rfl, rfl⟩

/-- C3 amended: only a failing copy-file call is recorded as Errored with
the traversal continuing at the next sibling (first two conjuncts: with no
existing destination file, and after a size-mismatch delete); a failing
delete is merely logged — the per-item outcome is entirely independent of
the delete result, so the copy still proceeds (third conjunct); and a
failing create-folder call writes no ledger entry and raises out of the
item body to the page-level handler (fourth conjunct). -/
theorem c3_amended :
    (∀ (o : ItemOracle) (drive : List DestEntry) (led : LedgerIO) (pi ti : Nat)
        (item : Item) (dp fid ts : String),
        (item.mimeType == folderMimeType) = false →
        lookupEntry led.state (getItemKey item.id dp) = none →
        findExistingItem o.findFails drive item.name dp item.mimeType = none →
        o.copyFails = true →
        (processItem o drive led pi ti item dp fid ts).raised = false
        ∧ lookupEntry (processItem o drive led pi ti item dp fid ts).ledger.state
            (getItemKey item.id dp) = some ⟨item.name, "file", "error", ts⟩)
    ∧ (∀ (o : ItemOracle) (drive : List DestEntry) (led : LedgerIO) (pi ti : Nat)
        (item : Item) (dp fid ts : String) (f : FoundItem),
        (item.mimeType == folderMimeType) = false →
        lookupEntry led.state (getItemKey item.id dp) = none →
        findExistingItem o.findFails drive item.name dp item.mimeType = some f →
        f.size.getD 0 ≠ item.size.getD 0 →
        o.copyFails = true →
        (processItem o drive led pi ti item dp fid ts).raised = false
        ∧ lookupEntry (processItem o drive led pi ti item dp fid ts).ledger.state
            (getItemKey item.id dp) = some ⟨item.name, "file", "error", ts⟩)
    ∧ (∀ (o : ItemOracle) (drive : List DestEntry) (led : LedgerIO)
        (item : Item) (dp fid ts : String) (b : Bool),
        processItemCore ⟨o.findFails, o.createFails, b, o.copyFails⟩
            drive led item dp fid ts
          = processItemCore o drive led item dp fid ts)
    ∧ (∀ (o : ItemOracle) (drive : List DestEntry) (led : LedgerIO) (pi ti : Nat)
        (item : Item) (dp fid ts : String),
        (item.mimeType == folderMimeType) = true →
        lookupEntry led.state (getItemKey item.id dp) = none →
        findExistingItem o.findFails drive item.name dp item.mimeType = none →
        o.createFails = true →
        (processItem o drive led pi ti item dp fid ts).raised = true
        ∧ (processItem o drive led pi ti item dp fid ts).ledger = led) := by
  refine ⟨?_, ?_, ?_, ?_⟩
  · intro o drive led pi ti item dp fid ts hfile hnew hfound hcopy
    have hc := processItemCore_file_notfound o drive led item dp fid ts hfile hnew hfound
    rw [hcopy] at hc
    constructor
    · simp [processItem_raised, hc]
    · rw [processItem_ledger, hc]
      dsimp only
      rw [markItemProcessed_state]
      exact lookupEntry_upsert_self ..
  · intro o drive led pi ti item dp fid ts f hfile hnew hfound hsz hcopy
    have hc := processItemCore_file_mismatch o drive led item dp fid ts f
      hfile hnew hfound hsz
    rw [hcopy] at hc
    constructor
    · simp [processItem_raised, hc]
    · rw [processItem_ledger, hc]
      dsimp only
      rw [markItemProcessed_state]
      exact lookupEntry_upsert_self ..
  · intro o drive led item dp fid ts b
    rfl
  · intro o drive led pi ti item dp fid ts hfolder hnew hfound hcreate
    have hc := processItemCore_folder_createFails o drive led item dp fid ts
      hfolder hnew hfound hcreate
    exact ⟨by simp [processItem_raised, hc], by simp [processItem_ledger, hc]⟩

/-- C3 witness: the four conjuncts of the amended theorem at concrete
inputs — a copy failure with no destination match, a copy failure after a
size mismatch, insensitivity to the delete outcome, and a create failure
raising with no ledger write. -/
theorem c3_witness :
    ((processItem ⟨false, false, false, true⟩ [] ⟨[], []⟩ 0 0
        ⟨"s1", "a.txt", "text/plain", some 5⟩ "d1" "n1" "t1").raised = false
      ∧ lookupEntry (processItem ⟨false, false, false, true⟩ [] ⟨[], []⟩ 0 0
          ⟨"s1", "a.txt", "text/plain", some 5⟩ "d1" "n1" "t1").ledger.state
          (getItemKey "s1" "d1") = some ⟨"a.txt", "file", "error", "t1"⟩)
    ∧ ((processItem ⟨false, false, true, true⟩
          [⟨"dst9", "a.txt", "text/plain", some 7, "d1", false⟩] ⟨[], []⟩ 0 0
          ⟨"s1", "a.txt", "text/plain", some 5⟩ "d1" "n1" "t1").raised = false
      ∧ lookupEntry (processItem ⟨false, false, true, true⟩
          [⟨"dst9", "a.txt", "text/plain", some 7, "d1", false⟩] ⟨[], []⟩ 0 0
          ⟨"s1", "a.txt", "text/plain", some 5⟩ "d1" "n1" "t1").ledger.state
          (getItemKey "s1" "d1") = some ⟨"a.txt", "file", "error", "t1"⟩)
    ∧ processItemCore ⟨false, false, true, false⟩
        [⟨"dst9", "a.txt", "text/plain", some 7, "d1", false⟩] ⟨[], []⟩
        ⟨"s1", "a.txt", "text/plain", some 5⟩ "d1" "n1" "t1"
      = processItemCore ⟨false, false, false, false⟩
          [⟨"dst9", "a.txt", "text/plain", some 7, "d1", false⟩] ⟨[], []⟩
          ⟨"s1", "a.txt", "text/plain", some 5⟩ "d1" "n1" "t1"
    ∧ ((processItem ⟨false, true, false, false⟩ [] ⟨[], []⟩ 0 0
          ⟨"f1", "Sub", "application/vnd.google-apps.folder", none⟩
          "d1" "n1" "t1").raised = true
      ∧ (processItem ⟨false, true, false, false⟩ [] ⟨[], []⟩ 0 0
          ⟨"f1", "Sub", "application/vnd.google-apps.folder", none⟩
          "d1" "n1" "t1").ledger = ⟨[], []⟩) :=
  ⟨c3_amended.1 ⟨false, false, false, true⟩ [] ⟨[], []⟩ 0 0
      ⟨"s1", "a.txt", "text/plain", some 5⟩ "d1" "n1" "t1"
      (by decide) (by decide) (by decide) (by decide),
   c3_amended.2.1 ⟨false, false, true, true⟩
      [⟨"dst9", "a.txt", "text/plain", some 7, "d1", false⟩] ⟨[], []⟩ 0 0
      ⟨"s1", "a.txt", "text/plain", some 5⟩ "d1" "n1" "t1" ⟨"dst9", some 7⟩
      (by decide) (by decide) (by decide) (by decide) (by decide),
   c3_amended.2.2.1 ⟨false, false, false, false⟩
      [⟨"dst9", "a.txt", "text/plain", some 7, "d1", false⟩] ⟨[], []⟩
      ⟨"s1", "a.txt", "text/plain", some 5⟩ "d1" "n1" "t1" true,
   c3_amended.2.2.2 ⟨false, true, false, false⟩ [] ⟨[], []⟩ 0 0
      ⟨"f1", "Sub", "application/vnd.google-apps.folder", none⟩ "d1" "n1" "t1"
      (by decide) (by decide) (by decide) (by decide)⟩

/-! ### C4: name-and-kind match at the destination — size decides -/

/-- C4: for a source file whose destination parent already contains a
non-trashed child with the same name and kind (i.e. the lookup of
lines 350-353 finds one): with equal sizes (missing sizes reading as 0)
the item is recorded `'existing'` and no remote mutation is attempted;
with differing sizes the destination file is deleted first and the source
file is then copied into the destination parent (the delete preceding the
copy in the attempted-call order), without the item raising — and the
delete being best-effort is witnessed by the outcome's independence of the
delete result (conjunct 3 of the C3 theorem covers that the oracle's
delete flag is never read). -/
theorem c4_thm (o : ItemOracle) (drive : List DestEntry) (led : LedgerIO)
    (pi ti : Nat) (item : Item) (dp fid ts : String) (f : FoundItem)
    (hfile : (item.mimeType == folderMimeType) = false)
    (hnew : lookupEntry led.state (getItemKey item.id dp) = none)
    (hfound : findExistingItem o.findFails drive item.name dp item.mimeType = some f) :
    (f.size.getD 0 = item.size.getD 0 →
        (processItem o drive led pi ti item dp fid ts).actions = []
        ∧ lookupEntry (processItem o drive led pi ti item dp fid ts).ledger.state
            (getItemKey item.id dp) = some ⟨item.name, "file", "existing", ts⟩)
    ∧ (f.size.getD 0 ≠ item.size.getD 0 →
        (processItem o drive led pi ti item dp fid ts).actions
          = [Action.deleteFile f.id, Action.copyFile item.id dp item.name]
        ∧ (processItem o drive led pi ti item dp fid ts).raised = false) := by
  constructor
  · intro hsz
    have hc := processItemCore_file_existing o drive led item dp fid ts f
      hfile hnew hfound hsz
    constructor
    · simp [processItem_actions, hc]
    · rw [processItem_ledger, hc]
      dsimp only
      rw [markItemProcessed_state]
      exact lookupEntry_upsert_self ..
  · intro hsz
    have hc := processItemCore_file_mismatch o drive led item dp fid ts f
      hfile hnew hfound hsz
    exact ⟨by simp [processItem_actions, hc], by simp [processItem_raised, hc]⟩

/-- C4 witness: a 5-byte source file against a 5-byte destination match is
recorded existing with no remote call; the same source against a 7-byte
match is handled by delete-then-copy. -/
theorem c4_witness :
    ((processItem ⟨false, false, false, false⟩
        [⟨"dst9", "a.txt", "text/plain", some 5, "d1", false⟩] ⟨[], []⟩ 0 0
        ⟨"s1", "a.txt", "text/plain", some 5⟩ "d1" "n1" "t1").actions = []
      ∧ lookupEntry (processItem ⟨false, false, false, false⟩
          [⟨"dst9", "a.txt", "text/plain", some 5, "d1", false⟩] ⟨[], []⟩ 0 0
          ⟨"s1", "a.txt", "text/plain", some 5⟩ "d1" "n1" "t1").ledger.state
          (getItemKey "s1" "d1") = some ⟨"a.txt", "file", "existing", "t1"⟩)
    ∧ (processItem ⟨false, false, false, false⟩
        [⟨"dst7", "a.txt", "text/plain", some 7, "d1", false⟩] ⟨[], []⟩ 0 0
        ⟨"s1", "a.txt", "text/plain", some 5⟩ "d1" "n1" "t1").actions
      = [Action.deleteFile "dst7", Action.copyFile "s1" "d1" "a.txt"] :=
  ⟨(c4_thm ⟨false, false, false, false⟩
      [⟨"dst9", "a.txt", "text/plain", some 5, "d1", false⟩] ⟨[], []⟩ 0 0
      ⟨"s1", "a.txt", "text/plain", some 5⟩ "d1" "n1" "t1" ⟨"dst9", some 5⟩
      (by decide) (by decide) (by decide)).1 (by decide),
   ((c4_thm ⟨false, false, false, false⟩
      [⟨"dst7", "a.txt", "text/plain", some 7, "d1", false⟩] ⟨[], []⟩ 0 0
      ⟨"s1", "a.txt", "text/plain", some 5⟩ "d1" "n1" "t1" ⟨"dst7", some 7⟩
      (by decide) (by decide) (by decide)).2 (by decide)).1⟩

/-! ### C10: both sizes missing means both read as 0 -/

/-- C10: when the source file has no reported size and the destination
parent holds a non-trashed same-name same-kind file that also has no
reported size, `int(existing_file.get('size', 0))` and
`int(source_size or 0)` both evaluate to 0, the comparison at line 358
succeeds, the item is recorded `'existing'`, and no delete or copy is
attempted, regardless of content. -/
theorem c10_thm (o : ItemOracle) (drive : List DestEntry) (led : LedgerIO)
    (pi ti : Nat) (item : Item) (dp fid ts : String) (f : FoundItem)
    (hfile : (item.mimeType == folderMimeType) = false)
    (hnew : lookupEntry led.state (getItemKey item.id dp) = none)
    (hfound : findExistingItem o.findFails drive item.name dp item.mimeType = some f)
    (hsrc : item.size = none) (hdst : f.size = none) :
    (processItem o drive led pi ti item dp fid ts).actions = []
    ∧ lookupEntry (processItem o drive led pi ti item dp fid ts).ledger.state
        (getItemKey item.id dp) = some ⟨item.name, "file", "existing", ts⟩ := by
  have hsz : f.size.getD 0 = item.size.getD 0 := by rw [hsrc, hdst]
  have hc := processItemCore_file_existing o drive led item dp fid ts f
    hfile hnew hfound hsz
  constructor
  · simp [processItem_actions, hc]
  · rw [processItem_ledger, hc]
    dsimp only
    rw [markItemProcessed_state]
    exact lookupEntry_upsert_self ..

/-- C10 witness: a sizeless Google-native source document against a
sizeless destination match of the same name and kind is recorded existing
with no remote call. -/
theorem c10_witness :
    (processItem ⟨false, false, false, false⟩
        [⟨"dstg", "Doc", "application/vnd.google-apps.document", none, "d1", false⟩]
        ⟨[], []⟩ 0 0
        ⟨"s1", "Doc", "application/vnd.google-apps.document", none⟩
        "d1" "n1" "t1").actions = []
    ∧ lookupEntry (processItem ⟨false, false, false, false⟩
        [⟨"dstg", "Doc", "application/vnd.google-apps.document", none, "d1", false⟩]
        ⟨[], []⟩ 0 0
        ⟨"s1", "Doc", "application/vnd.google-apps.document", none⟩
        "d1" "n1" "t1").ledger.state (getItemKey "s1" "d1")
      = some ⟨"Doc", "file", "existing", "t1"⟩ :=
  c10_thm ⟨false, false, false, false⟩
    [⟨"dstg", "Doc", "application/vnd.google-apps.document", none, "d1", false⟩]
    ⟨[], []⟩ 0 0 ⟨"s1", "Doc", "application/vnd.google-apps.document", none⟩
    "d1" "n1" "t1" ⟨"dstg", none⟩
    (by decide) (by decide) (by decide) (by decide) (by decide)

end GdriveTransfer
